import Mathlib

set_option maxRecDepth 8000

/-!
Verification development for the `origin` package of ncruces/go-cloudflare.

The package configures an http.Server (and a net.Listener) that only accepts
legitimate TLS requests from Cloudflare: SNI-driven certificate selection,
an in-memory cache of the Cloudflare CIDR ranges refreshed at most once an
hour, an IP gate consulted on-demand, and a decoy connection for filtered
accepts.  The Go functions are embedded shallowly below: machine state
(the published range set and the last refresh time) is passed explicitly,
and the two outbound HTTP fetches are inputs of each refresh call.
-/

/-- Separator of the network and the mask length in a CIDR line. -/
def slashChar : Char := '/'

/-- Separator of the octets of a dotted-quad address. -/
def dotChar : Char := '.'

def msgBadCIDR : String := "invalid CIDR address: "

def msgFetch4 : String := "failed to fecth Cloudflare IPv4s: "

def msgFetch6 : String := "failed to fecth Cloudflare IPv6s: "

/-- Error constants of the origin package (Go `constError` values). -/
def errNotCloudflare : String := "not a Cloudflare IP"

def errMissingServerName : String := "missing server name"

def errMismatchedServerName : String := "mismatched server name"

/-- An IP address is a byte sequence, as in Go `net.IP`; the nil IP is `[]`. -/
abbrev IP := List Nat

/-- Go `net.IP.To4`: the 4-byte form of an IPv4 address, `[]` (nil) otherwise. -/
def ipTo4 (ip : IP) : IP :=
  if ip.length == 4 then ip
  else if ip.length == 16 && (ip.take 10).all (fun b => b == 0)
      && ((ip.drop 10).take 2 == [255, 255]) then
    ip.drop 12
  else []

/-- Go `net.IPNet`: a CIDR block, network number plus mask. -/
structure IPNet where
  ip : IP
  mask : IP
deriving DecidableEq

/-- Go net package `networkNumberAndMask`: the normalized network number and
mask of an `IPNet`; the pair `([], [])` models the Go `nil, nil` result. -/
def IPNet.nnAndMask (n : IPNet) : IP × IP :=
  let ip4 := ipTo4 n.ip
  if ip4.isEmpty && !(n.ip.length == 16) then ([], [])
  else
    let nn := if ip4.isEmpty then n.ip else ip4
    if n.mask.length == 4 then
      if nn.length == 4 then (nn, n.mask) else ([], [])
    else if n.mask.length == 16 then
      if nn.length == 4 then (nn, n.mask.drop 12) else (nn, n.mask)
    else ([], [])

/-- Go `net.IPNet.Contains`: membership of an IP in a CIDR block. -/
def IPNet.contains (n : IPNet) (ip : IP) : Bool :=
  let nm := n.nnAndMask
  let ip4 := ipTo4 ip
  let ipn := if ip4.isEmpty then ip else ip4
  ipn.length == nm.1.length &&
    (List.zip nm.1 (List.zip nm.2 ipn)).all
      (fun p => Nat.land p.1 p.2.1 == Nat.land p.2.2 p.2.1)

/-- A parsed `IPNet` is well formed when its normalized network number is
non-empty; every `net.ParseCIDR` output satisfies this. -/
def wfNet (n : IPNet) : Bool := !(n.nnAndMask.1.isEmpty)

/-- Byte of a 32-bit CIDR mask of `n` leading one bits, as in `net.CIDRMask`. -/
def maskByte (n i : Nat) : Nat :=
  if 8 * (i + 1) ≤ n then 255
  else if n ≤ 8 * i then 0
  else 256 - 2 ^ (8 - (n - 8 * i))

/-- Go `net.CIDRMask(n, 32)`, the IPv4 mask with `n` leading one bits. -/
def cidrMask (n : Nat) : IP :=
  [maskByte n 0, maskByte n 1, maskByte n 2, maskByte n 3]

/-- Byte-wise AND of an address with a mask (`net.IP.Mask`). -/
def applyMask (ip mask : IP) : IP := List.zipWith Nat.land ip mask

/-- Split a character list at every occurrence of a separator; the groups
between separators, in order (so a list with no separator is one group). -/
def splitOnChar (sep : Char) : List Char → List (List Char)
  | [] => [[]]
  | c :: cs =>
    match splitOnChar sep cs with
    | [] => if c == sep then [[], [c]] else [[c]]
    | g :: gs => if c == sep then [] :: g :: gs else (c :: g) :: gs

/-- Value of a decimal digit character, if it is one. -/
def digitVal (c : Char) : Option Nat :=
  if 48 ≤ c.toNat ∧ c.toNat ≤ 57 then some (c.toNat - 48) else none

/-- Accumulate the decimal value of a digit run; any non-digit fails. -/
def parseNatAux : List Char → Nat → Option Nat
  | [], acc => some acc
  | c :: cs, acc =>
    match digitVal c with
    | some d => parseNatAux cs (acc * 10 + d)
    | none => none

/-- A non-empty all-digit character run as a natural number. -/
def parseNatChars : List Char → Option Nat
  | [] => none
  | cs => parseNatAux cs 0

/-- One decimal octet of a dotted-quad address, value at most 255. -/
def parseOctet (cs : List Char) : Option Nat :=
  match parseNatChars cs with
  | some v => if v ≤ 255 ∧ cs.length ≤ 3 then some v else none
  | none => none

/-- Model of `net.ParseCIDR` restricted to IPv4 dotted-quad notation
(`a.b.c.d/len`); returns the masked network, as ParseCIDR does.  The
Cloudflare range lists consumed by the package are lines of this shape
(the IPv6 endpoint is modelled through the same parse-or-fail interface). -/
def parseCIDR (s : String) : Option IPNet :=
  match splitOnChar slashChar s.data with
  | [ipcs, lencs] =>
    match splitOnChar dotChar ipcs with
    | [a, b, c, d] =>
      match parseOctet a, parseOctet b, parseOctet c, parseOctet d, parseNatChars lencs with
      | some va, some vb, some vc, some vd, some k =>
        if k ≤ 32 ∧ lencs.length ≤ 2 then
          some { ip := applyMask [va, vb, vc, vd] (cidrMask k), mask := cidrMask k }
        else none
      | _, _, _, _, _ => none
    | _ => none
  | _ => none

/-- Equality of fallible results is decidable componentwise. -/
instance {ε α : Type} [DecidableEq ε] [DecidableEq α] : DecidableEq (Except ε α) :=
  fun a b =>
    match a, b with
    | Except.error e1, Except.error e2 =>
      if h : e1 = e2 then isTrue (by rw [h])
      else isFalse (by intro hc; injection hc; contradiction)
    | Except.ok v1, Except.ok v2 =>
      if h : v1 = v2 then isTrue (by rw [h])
      else isFalse (by intro hc; injection hc; contradiction)
    | Except.error e1, Except.ok v2 => isFalse (by intro hc; cases hc)
    | Except.ok v1, Except.error e2 => isFalse (by intro hc; cases hc)

/-- An HTTP response to one of the two range-list GETs: status code and text,
the body split into lines, and an optional mid-body read error
(`bufio.Scanner.Err`). -/
structure HttpResponse where
  status : Nat
  statusText : String
  body : List String
  bodyErr : Option String

/-- Parse every body line as a CIDR; the first bad line fails the whole
fetch, as in the scan loop of `loadIPs`. -/
def parseLines : List String → Except String (List IPNet)
  | [] => Except.ok []
  | l :: ls =>
    match parseCIDR l with
    | none => Except.error (msgBadCIDR ++ l)
    | some n =>
      match parseLines ls with
      | Except.error e => Except.error e
      | Except.ok ns => Except.ok (n :: ns)

/-- Go `loadIPs`: fetch one range list.  A transport error, a non-200 status,
a bad CIDR line, or a body read error each fail the fetch. -/
def loadIPs : Except String HttpResponse → Except String (List IPNet)
  | Except.error e => Except.error e
  | Except.ok r =>
    if r.status == 200 then
      match parseLines r.body with
      | Except.error e => Except.error e
      | Except.ok ns =>
        match r.bodyErr with
        | some e => Except.error e
        | none => Except.ok ns
    else Except.error r.statusText

/-- The shared mutable state of the package: the atomically published range
set (`ips atomic.Value`, absent before the first successful fetch) and the
time of the last refresh attempt (`refresh time.Time`; `none` models the
zero time, which every realistic clock reading exceeds by over an hour). -/
structure CacheState where
  published : Option (List IPNet)
  lastAttempt : Option Int
deriving DecidableEq

/-- The environment of one refresh opportunity: the clock reading
(`time.Now`, in seconds) and the responses the two fixed Cloudflare
endpoints would give if fetched now. -/
structure Env where
  now : Int
  resp4 : Except String HttpResponse
  resp6 : Except String HttpResponse

/-- One hour, the refresh throttle window (`time.Hour`), in seconds. -/
def oneHour : Int := 3600

/-- Go `time.Since(refresh) > time.Hour`; the zero time is over an hour ago. -/
def sinceExceedsHour (now : Int) : Option Int → Bool
  | none => true
  | some t => decide (now - t > oneHour)

/-- Result of one `updateIPs` call: a returned slice (`.ret []` models the
nil slice returned on a failed post-bootstrap fetch), a fatal `log.Fatalln`
exit, or the panic of the unchecked type assertion on a nil atomic value. -/
inductive UpdateResult where
  | ret (v : List IPNet)
  | fatal (msg : String)
  | panicked
deriving DecidableEq

/-- Go `updateIPs`: at most one fetch cycle per hour.  Outside the throttle
window, attempt both fetches; on any failure, exit fatally if nothing was
ever published, otherwise log and return nil, leaving the published set
unchanged.  On success, publish and return the concatenated lists.  Inside
the window, return the published set as-is. -/
def updateIPs (env : Env) (s : CacheState) : CacheState × UpdateResult :=
  if sinceExceedsHour env.now s.lastAttempt then
    match loadIPs env.resp4 with
    | Except.error e =>
      match s.published with
      | none => ({ s with lastAttempt := some env.now }, UpdateResult.fatal (msgFetch4 ++ e))
      | some _ => ({ s with lastAttempt := some env.now }, UpdateResult.ret [])
    | Except.ok ipv4 =>
      match loadIPs env.resp6 with
      | Except.error e =>
        match s.published with
        | none => ({ s with lastAttempt := some env.now }, UpdateResult.fatal (msgFetch6 ++ e))
        | some _ => ({ s with lastAttempt := some env.now }, UpdateResult.ret [])
      | Except.ok ipv6 =>
        ({ s with lastAttempt := some env.now, published := some (ipv4 ++ ipv6) },
         UpdateResult.ret (ipv4 ++ ipv6))
  else
    match s.published with
    | some v => (s, UpdateResult.ret v)
    | none => (s, UpdateResult.panicked)

/-- Whether a refresh call performs a network fetch (takes the fetch branch). -/
def didFetch (env : Env) (s : CacheState) : Bool :=
  sinceExceedsHour env.now s.lastAttempt

/-- Whether an `updateIPs` result is the fatal bootstrap exit. -/
def isFatal : UpdateResult → Bool
  | UpdateResult.fatal _ => true
  | _ => false

/-- Whether a fallible step failed. -/
def isErr {α : Type} : Except String α → Bool
  | Except.error _ => true
  | Except.ok _ => false

/-- Go `net.Addr` as seen by `checkIP`: a TCP, UDP or IP address carrying an
IP, or any other address type, from which no IP is extracted. -/
inductive Addr where
  | tcp (ip : IP)
  | udp (ip : IP)
  | ipa (ip : IP)
  | other
deriving DecidableEq

/-- The IP extracted from a remote address by the type switch in `checkIP`;
the nil IP for any other address type. -/
def addrIP : Addr → IP
  | Addr.tcp ip => ip
  | Addr.udp ip => ip
  | Addr.ipa ip => ip
  | Addr.other => []

/-- Result of an IP-gate check: allowed, denied, or aborted because the
refresh it triggered terminated the process. -/
inductive CheckOutcome where
  | allowed
  | denied
  | aborted
deriving DecidableEq

/-- Membership of an IP in any block of a range list. -/
def inAnyNet (nets : List IPNet) (ip : IP) : Bool :=
  nets.any (fun n => n.contains ip)

/-- Go `checkIP`: test the extracted IP against the published set (a nil
published value reads as the empty slice via the comma-ok assertion); on a
miss, call `updateIPs` once and re-test against whatever it returns.  The
third component counts the `updateIPs` calls made. -/
def checkIP (env : Env) (s : CacheState) (addr : Addr) : CacheState × CheckOutcome × Nat :=
  if inAnyNet (s.published.getD []) (addrIP addr) then (s, CheckOutcome.allowed, 0)
  else
    match updateIPs env s with
    | (s1, UpdateResult.ret v) =>
      (s1, (if inAnyNet v (addrIP addr) then CheckOutcome.allowed else CheckOutcome.denied), 1)
    | (s1, UpdateResult.fatal _) => (s1, CheckOutcome.aborted, 1)
    | (s1, UpdateResult.panicked) => (s1, CheckOutcome.aborted, 1)

/-- The part of a ClientHello the certificate-selection callback reads: the
SNI server name, the compatibility test `info.SupportsCertificate` (which
folds together name matching and the advertised TLS capabilities), and the
connection remote address. -/
structure ClientHelloInfo (Cert : Type) where
  serverName : String
  supports : Cert → Bool
  remoteAddr : Addr

/-- Result of the `GetCertificate` callback: a certificate, a refusal error
(the Go `nil, err` return), or the fatal abort of a bootstrap refresh. -/
inductive SelOutcome (Cert : Type) where
  | ok (c : Cert)
  | refuse (e : String)
  | aborted
deriving DecidableEq

/-- The `GetCertificate` callback installed by `NewServerWithCerts`: require
SNI, find the first configured certificate the hello supports, then — only
if one was found and filtering is on — consult the IP gate.  The third
component counts the `checkIP` calls made. -/
def getCertificate {Cert : Type} (filterIPs : Bool) (certs : List Cert)
    (env : Env) (s : CacheState) (info : ClientHelloInfo Cert) :
    CacheState × SelOutcome Cert × Nat :=
  if info.serverName = "" then (s, SelOutcome.refuse errMissingServerName, 0)
  else
    match certs.find? info.supports with
    | none => (s, SelOutcome.refuse errMismatchedServerName, 0)
    | some c =>
      if filterIPs then
        match checkIP env s info.remoteAddr with
        | (s1, CheckOutcome.allowed, _) => (s1, SelOutcome.ok c, 1)
        | (s1, CheckOutcome.denied, _) => (s1, SelOutcome.refuse errNotCloudflare, 1)
        | (s1, CheckOutcome.aborted, _) => (s1, SelOutcome.aborted, 1)
      else (s, SelOutcome.ok c, 0)

/-- What a connecting client observes of a selection outcome: the served
certificate, or nothing — every refusal aborts the handshake with no
certificate transmitted, whatever the server-side error value was. -/
def wireView {Cert : Type} : SelOutcome Cert → Option Cert
  | SelOutcome.ok c => some c
  | SelOutcome.refuse _ => none
  | SelOutcome.aborted => none

/-- A transport connection as the listener sees it: its remote address and
whether the underlying socket has been closed. -/
structure NetConn where
  remoteAddr : Addr
  closed : Bool
deriving DecidableEq

/-- A connection handed out by the filtering listener: the raw accepted
connection, or the decoy wrapper `conn` around a connection. -/
inductive AcceptedConn where
  | raw (c : NetConn)
  | decoy (c : NetConn)
deriving DecidableEq

/-- Result of one `listener.Accept`: an error from the inner listener, a
connection, or process termination from a fatal bootstrap refresh. -/
inductive AcceptOutcome where
  | fail (e : String)
  | conn (c : AcceptedConn)
  | terminated
deriving DecidableEq

/-- Go `listener.Accept`: propagate inner errors; on a disallowed remote
address, close the underlying connection and return the decoy wrapper with
a nil error; otherwise pass the connection through. -/
def acceptConn (env : Env) (s : CacheState) :
    Except String NetConn → CacheState × AcceptOutcome
  | Except.error e => (s, AcceptOutcome.fail e)
  | Except.ok c =>
    match checkIP env s c.remoteAddr with
    | (s1, CheckOutcome.allowed, _) => (s1, AcceptOutcome.conn (AcceptedConn.raw c))
    | (s1, CheckOutcome.denied, _) =>
      (s1, AcceptOutcome.conn (AcceptedConn.decoy { c with closed := true }))
    | (s1, CheckOutcome.aborted, _) => (s1, AcceptOutcome.terminated)

/-- Decoy `conn.Read`: no bytes, the not-a-Cloudflare-IP error, socket state
untouched. -/
def decoyRead (c : NetConn) (_want : Nat) : (Nat × Option String) × NetConn :=
  ((0, some errNotCloudflare), c)

/-- Decoy `conn.Write`: no bytes, the not-a-Cloudflare-IP error, socket state
untouched. -/
def decoyWrite (c : NetConn) (_buf : List Nat) : (Nat × Option String) × NetConn :=
  ((0, some errNotCloudflare), c)

/-- Decoy `conn.Close`: reports success (nil error) and changes nothing. -/
def decoyClose (c : NetConn) : Option String × NetConn := (none, c)

/-- Fixture: the 1.2.3.0/24 block, as parsed from its CIDR line. -/
def net1 : IPNet := { ip := [1, 2, 3, 0], mask := [255, 255, 255, 0] }

/-- Fixture: an address inside net1. -/
def ipIn : IP := [1, 2, 3, 7]

/-- Fixture: an address outside net1. -/
def ipOut : IP := [9, 9, 9, 9]

def nameA : String := "a.example"

def nameC : String := "c.example"

def connRefused : String := "connection refused"

def okText : String := "OK"

def lineA : String := "1.2.3.0/24"

def lineBad : String := "bogus"

/-- A successful 200 response with the given body lines. -/
def respOf (lines : List String) : Except String HttpResponse :=
  Except.ok { status := 200, statusText := okText, body := lines, bodyErr := none }

/-- A failed fetch (transport error). -/
def respFail : Except String HttpResponse := Except.error connRefused

/-- Environment where both fetches fail, clock at 5000. -/
def envFail : Env := { now := 5000, resp4 := respFail, resp6 := respFail }

/-- Environment where both fetches succeed, clock at 5000. -/
def envOk : Env := { now := 5000, resp4 := respOf [lineA], resp6 := respOf [] }

/-- Environment with failing fetches at clock 100, within an hour of time 0. -/
def env9 : Env := { now := 100, resp4 := respFail, resp6 := respFail }

/-- Environment at clock 6000, within an hour of envOk's clock. -/
def envLater : Env := { now := 6000, resp4 := respFail, resp6 := respFail }

/-- State with a published set and the zero-valued last-attempt time. -/
def s0 : CacheState := { published := some [net1], lastAttempt := none }

/-- State with a published set, last attempted at time 0. -/
def s9 : CacheState := { published := some [net1], lastAttempt := some 0 }

/-- The process start state: nothing published, zero-valued attempt time. -/
def sInit : CacheState := { published := none, lastAttempt := none }

/-- Fixture certificate list: certificate 0 and certificate 1. -/
def certsW : List Nat := [0, 1]

/-- Hello for a configured name from an allowlisted address. -/
def helloA : ClientHelloInfo Nat :=
  { serverName := nameA, supports := fun c => c == 0, remoteAddr := Addr.tcp ipIn }

/-- Hello for a configured name from a non-listed address. -/
def helloB : ClientHelloInfo Nat :=
  { serverName := nameA, supports := fun c => c == 0, remoteAddr := Addr.tcp ipOut }

/-- Hello for an unconfigured name (no certificate is compatible). -/
def helloC : ClientHelloInfo Nat :=
  { serverName := nameC, supports := fun _ => false, remoteAddr := Addr.tcp ipIn }

/-- Hello with no SNI at all. -/
def helloEmpty : ClientHelloInfo Nat :=
  { serverName := "", supports := fun c => c == 0, remoteAddr := Addr.tcp ipIn }

/-- An open connection from a non-listed address. -/
def c0 : NetConn := { remoteAddr := Addr.tcp ipOut, closed := false }


/-- A well-formed CIDR block never contains the nil IP: the normalized
network number is non-empty while the nil IP has length zero. -/
theorem contains_nil_of_wf (n : IPNet) (h : wfNet n = true) : n.contains [] = false := by
  unfold IPNet.contains
  unfold wfNet at h
  rcases hnm : n.nnAndMask with ⟨nn, m⟩
  rw [hnm] at h
  cases nn with
  | nil => simp at h
  | cons a t => simp [hnm, ipTo4]

/-- No well-formed block of a list contains the nil IP. -/
theorem inAnyNet_nil (nets : List IPNet) (h : ∀ n ∈ nets, wfNet n = true) :
    inAnyNet nets [] = false := by
  induction nets with
  | nil => rfl
  | cons x xs ih =>
    unfold inAnyNet
    rw [List.any_cons]
    have hx : x.contains [] = false := contains_nil_of_wf x (h x (List.mem_cons_self x xs))
    rw [hx]
    simpa [inAnyNet] using ih (fun n hn => h n (List.mem_cons_of_mem x hn))

/-- Every output of the CIDR parser is well formed. -/
theorem parseCIDR_wf (s : String) (n : IPNet) (h : parseCIDR s = some n) : wfNet n = true := by
  unfold parseCIDR at h
  repeat split at h
  all_goals first
  | (exact Option.noConfusion h)
  | (injection h with h2; subst h2; rfl)

/-- Every block produced by parsing a body is well formed. -/
theorem parseLines_wf (ls : List String) (l : List IPNet) (h : parseLines ls = Except.ok l) :
    ∀ n ∈ l, wfNet n = true := by
  induction ls generalizing l with
  | nil =>
    intro n hn
    unfold parseLines at h
    injection h with h2
    subst h2
    simp at hn
  | cons x xs ih =>
    intro n hn
    unfold parseLines at h
    cases hp : parseCIDR x with
    | none => rw [hp] at h; cases h
    | some m =>
      rw [hp] at h
      cases hr : parseLines xs with
      | error e => rw [hr] at h; cases h
      | ok ns =>
        rw [hr] at h
        injection h with h2
        subst h2
        rcases List.mem_cons.mp hn with h3 | h3
        · subst h3; exact parseCIDR_wf x n hp
        · exact ih ns hr n h3

/-- Every block produced by a successful fetch is well formed. -/
theorem loadIPs_wf (resp : Except String HttpResponse) (l : List IPNet)
    (h : loadIPs resp = Except.ok l) : ∀ n ∈ l, wfNet n = true := by
  cases resp with
  | error e => cases h
  | ok r =>
    simp only [loadIPs] at h
    by_cases hs : (r.status == 200) = true
    · rw [if_pos hs] at h
      cases hb : parseLines r.body with
      | error e => rw [hb] at h; cases h
      | ok ns =>
        rw [hb] at h
        cases he : r.bodyErr with
        | some e => rw [he] at h; cases h
        | none =>
          rw [he] at h
          injection h with h2
          subst h2
          exact parseLines_wf r.body ns hb
    · rw [if_neg hs] at h; cases h

/-- Whatever slice a refresh call returns, its blocks are well formed,
provided the already-published ones are. -/
theorem updateIPs_ret_wf (env : Env) (s : CacheState) (v : List IPNet)
    (hpub : ∀ n ∈ s.published.getD [], wfNet n = true)
    (h : (updateIPs env s).2 = UpdateResult.ret v) : ∀ n ∈ v, wfNet n = true := by
  unfold updateIPs at h
  by_cases hf : sinceExceedsHour env.now s.lastAttempt = true
  · rw [if_pos hf] at h
    cases h4 : loadIPs env.resp4 with
    | error e =>
      rw [h4] at h
      cases hp : s.published with
      | none => rw [hp] at h; cases h
      | some p =>
        rw [hp] at h
        injection h with h2
        subst h2
        intro n hn
        simp at hn
    | ok l4 =>
      rw [h4] at h
      cases h6 : loadIPs env.resp6 with
      | error e =>
        rw [h6] at h
        cases hp : s.published with
        | none => rw [hp] at h; cases h
        | some p =>
          rw [hp] at h
          injection h with h2
          subst h2
          intro n hn
          simp at hn
      | ok l6 =>
        rw [h6] at h
        injection h with h2
        subst h2
        intro n hn
        rcases List.mem_append.mp hn with h3 | h3
        · exact loadIPs_wf env.resp4 l4 h4 n h3
        · exact loadIPs_wf env.resp6 l6 h6 n h3
  · rw [if_neg hf] at h
    cases hp : s.published with
    | none => rw [hp] at h; cases h
    | some p =>
      rw [hp] at h
      injection h with h2
      subst h2
      intro n hn
      exact hpub n (by rw [hp]; exact hn)

/-- A fetching refresh stamps the attempt time with the current clock. -/
theorem updateIPs_fetch_lastAttempt (env : Env) (s : CacheState)
    (hf : sinceExceedsHour env.now s.lastAttempt = true) :
    (updateIPs env s).1.lastAttempt = some env.now := by
  unfold updateIPs
  rw [if_pos hf]
  cases h4 : loadIPs env.resp4 with
  | error e => cases hp : s.published <;> simp
  | ok l4 =>
    cases h6 : loadIPs env.resp6 with
    | error e => cases hp : s.published <;> simp
    | ok l6 => simp

/-- A throttled refresh with a published set returns it and changes nothing. -/
theorem updateIPs_throttled (env : Env) (s : CacheState) (p : List IPNet)
    (hth : sinceExceedsHour env.now s.lastAttempt = false)
    (hp : s.published = some p) :
    updateIPs env s = (s, UpdateResult.ret p) := by
  unfold updateIPs
  rw [hth]
  simp [hp]

/-- A throttle verdict can only be reached with a stamped attempt time. -/
theorem sinceExceedsHour_false_isSome (now : Int) (la : Option Int)
    (h : sinceExceedsHour now la = false) : la.isSome = true := by
  cases la with
  | none => cases h
  | some t => rfl

/-- A surviving refresh preserves the invariant that a stamped attempt time
implies a published set. -/
theorem updateIPs_inv (env : Env) (s : CacheState)
    (hinv : s.lastAttempt.isSome = true → s.published.isSome = true)
    (hsurv : isFatal (updateIPs env s).2 = false) :
    (updateIPs env s).1.lastAttempt.isSome = true →
      (updateIPs env s).1.published.isSome = true := by
  unfold updateIPs at hsurv ⊢
  by_cases hf : sinceExceedsHour env.now s.lastAttempt = true
  · rw [if_pos hf] at hsurv ⊢
    cases h4 : loadIPs env.resp4 with
    | error e =>
      simp only [h4] at hsurv ⊢
      cases hp : s.published with
      | none => simp [hp, isFatal] at hsurv
      | some p => intro _; simp [hp]
    | ok l4 =>
      simp only [h4] at hsurv ⊢
      cases h6 : loadIPs env.resp6 with
      | error e =>
        simp only [h6] at hsurv ⊢
        cases hp : s.published with
        | none => simp [hp, isFatal] at hsurv
        | some p => intro _; simp [hp]
      | ok l6 => intro _; simp
  · rw [if_neg hf] at hsurv ⊢
    cases hp : s.published with
    | none => intro hla; exact absurd (hinv (by simpa [hp] using hla)) (by simp [hp])
    | some p => intro _; simp [hp]

/-- An IP inside the published set is allowed with no refresh triggered. -/
theorem checkIP_hit (env : Env) (s : CacheState) (addr : Addr)
    (h : inAnyNet (s.published.getD []) (addrIP addr) = true) :
    checkIP env s addr = (s, CheckOutcome.allowed, 0) := by
  unfold checkIP
  rw [if_pos h]

/-- An IP outside the published set triggers one refresh and is re-tested
against whatever slice that refresh returns. -/
theorem checkIP_miss (env : Env) (s : CacheState) (addr : Addr) (s1 : CacheState) (v : List IPNet)
    (h : inAnyNet (s.published.getD []) (addrIP addr) = false)
    (hu : updateIPs env s = (s1, UpdateResult.ret v)) :
    checkIP env s addr =
      (s1, (if inAnyNet v (addrIP addr) then CheckOutcome.allowed else CheckOutcome.denied), 1) := by
  unfold checkIP
  rw [h, hu]
  rfl

/-- With SNI present but no compatible certificate, selection refuses with
the mismatched-server-name error and never consults the IP gate. -/
theorem getCertificate_mismatch {Cert : Type} (fIP : Bool) (certs : List Cert) (env : Env)
    (s : CacheState) (info : ClientHelloInfo Cert)
    (h1 : info.serverName ≠ "") (hf : certs.find? info.supports = none) :
    getCertificate fIP certs env s info = (s, SelOutcome.refuse errMismatchedServerName, 0) := by
  unfold getCertificate
  rw [if_neg h1, hf]

/-- With SNI present, a compatible certificate found, and the remote IP in
the published set, selection returns that certificate. -/
theorem getCertificate_allowed {Cert : Type} (certs : List Cert) (env : Env)
    (s : CacheState) (info : ClientHelloInfo Cert) (c : Cert)
    (h1 : info.serverName ≠ "") (hf : certs.find? info.supports = some c)
    (hin : inAnyNet (s.published.getD []) (addrIP info.remoteAddr) = true) :
    getCertificate true certs env s info = (s, SelOutcome.ok c, 1) := by
  unfold getCertificate
  rw [if_neg h1, hf, checkIP_hit env s info.remoteAddr hin]
  rfl

/-- With SNI present, a compatible certificate found, but the remote IP
outside both the published set and the refresh result, selection refuses
with the not-a-Cloudflare-IP error. -/
theorem getCertificate_denied {Cert : Type} (certs : List Cert) (env : Env)
    (s s1 : CacheState) (info : ClientHelloInfo Cert) (c : Cert) (v : List IPNet)
    (h1 : info.serverName ≠ "") (hf : certs.find? info.supports = some c)
    (hm : inAnyNet (s.published.getD []) (addrIP info.remoteAddr) = false)
    (hu : updateIPs env s = (s1, UpdateResult.ret v))
    (hm2 : inAnyNet v (addrIP info.remoteAddr) = false) :
    getCertificate true certs env s info = (s1, SelOutcome.refuse errNotCloudflare, 1) := by
  have hc : checkIP env s info.remoteAddr = (s1, CheckOutcome.denied, 1) := by
    rw [checkIP_miss env s info.remoteAddr s1 v hm hu, hm2]
    rfl
  unfold getCertificate
  rw [if_neg h1, hf, hc]
  rfl

/-- Claim C1: for a ClientHello whose server name matches a configured
certificate but whose remote address is outside the allowed ranges (with IP
filtering enabled), and a ClientHello whose server name matches no
configured certificate, the selection callback produces observably
identical refusal outcomes: both are refusals (the same error category, a
`nil, err` return aborting the handshake), and the client-observable wire
outcome is the same — no certificate transmitted — so the refusal does not
reveal whether a name match existed. -/
theorem claim_c1_refusal_indistinguishable {Cert : Type} (certs : List Cert) (env : Env)
    (s s1 : CacheState) (v : List IPNet) (i1 i2 : ClientHelloInfo Cert) (c : Cert)
    (h1n : i1.serverName ≠ "")
    (h1f : certs.find? i1.supports = some c)
    (h1m : inAnyNet (s.published.getD []) (addrIP i1.remoteAddr) = false)
    (hu : updateIPs env s = (s1, UpdateResult.ret v))
    (h1m2 : inAnyNet v (addrIP i1.remoteAddr) = false)
    (h2n : i2.serverName ≠ "")
    (h2f : certs.find? i2.supports = none) :
    (∃ e1, (getCertificate true certs env s i1).2.1 = SelOutcome.refuse e1)
    ∧ (∃ e2, (getCertificate true certs env s i2).2.1 = SelOutcome.refuse e2)
    ∧ wireView (getCertificate true certs env s i1).2.1
        = wireView (getCertificate true certs env s i2).2.1
    ∧ wireView (getCertificate true certs env s i1).2.1 = none := by
  have hd := getCertificate_denied certs env s s1 i1 c v h1n h1f h1m hu h1m2
  have hm := getCertificate_mismatch true certs env s i2 h2n h2f
  rw [hd, hm]
  exact ⟨⟨errNotCloudflare, rfl⟩, ⟨errMismatchedServerName, rfl⟩, rfl, rfl⟩

/-- Claim C1 witness: with certificates for `a.example` registered, the
refusal for `a.example` from a non-listed IP and the refusal for
`c.example` are observably identical on the wire. -/
theorem claim_c1_witness :
    (∃ e1, (getCertificate true certsW env9 s9 helloB).2.1 = SelOutcome.refuse e1)
    ∧ (∃ e2, (getCertificate true certsW env9 s9 helloC).2.1 = SelOutcome.refuse e2)
    ∧ wireView (getCertificate true certsW env9 s9 helloB).2.1
        = wireView (getCertificate true certsW env9 s9 helloC).2.1
    ∧ wireView (getCertificate true certsW env9 s9 helloB).2.1 = none :=
  claim_c1_refusal_indistinguishable certsW env9 s9 s9 [net1] helloB helloC 0
    (by decide) (by decide) (by decide) (by decide) (by decide) (by decide) (by decide)

/-- Claim C2: with filtering enabled, a hello whose name matches from an
allowlisted address yields the first compatible certificate in configured
order (List.find?); a hello matching no certificate is refused with the
mismatched-server-name error with zero IP-gate consultations (the gate is
consulted only after a name match); and a matching hello from an address
outside the allowed ranges is refused with the not-a-Cloudflare-IP error. -/
theorem claim_c2_selection (Cert : Type) (certs : List Cert) (env : Env) (s : CacheState) :
    (∀ (i : ClientHelloInfo Cert) (c : Cert),
       i.serverName ≠ "" → certs.find? i.supports = some c →
       inAnyNet (s.published.getD []) (addrIP i.remoteAddr) = true →
       getCertificate true certs env s i = (s, SelOutcome.ok c, 1))
    ∧ (∀ (i : ClientHelloInfo Cert),
       i.serverName ≠ "" → certs.find? i.supports = none →
       getCertificate true certs env s i = (s, SelOutcome.refuse errMismatchedServerName, 0))
    ∧ (∀ (i : ClientHelloInfo Cert) (c : Cert) (s1 : CacheState) (v : List IPNet),
       i.serverName ≠ "" → certs.find? i.supports = some c →
       inAnyNet (s.published.getD []) (addrIP i.remoteAddr) = false →
       updateIPs env s = (s1, UpdateResult.ret v) →
       inAnyNet v (addrIP i.remoteAddr) = false →
       getCertificate true certs env s i = (s1, SelOutcome.refuse errNotCloudflare, 1)) :=
  ⟨fun i c h1 h2 h3 => getCertificate_allowed certs env s i c h1 h2 h3,
   fun i h1 h2 => getCertificate_mismatch true certs env s i h1 h2,
   fun i c s1 v h1 h2 h3 h4 h5 => getCertificate_denied certs env s s1 i c v h1 h2 h3 h4 h5⟩

/-- Claim C2 witness: the end-to-end example of the spec — SNI `a.example`
from an allowlisted IP gets certificate 0, SNI `c.example` gets the
mismatch refusal without consulting the gate, and SNI `a.example` from a
non-listed IP gets the not-a-Cloudflare refusal. -/
theorem claim_c2_witness :
    getCertificate true certsW env9 s9 helloA = (s9, SelOutcome.ok 0, 1)
    ∧ getCertificate true certsW env9 s9 helloC =
        (s9, SelOutcome.refuse errMismatchedServerName, 0)
    ∧ getCertificate true certsW env9 s9 helloB =
        (s9, SelOutcome.refuse errNotCloudflare, 1) :=
  ⟨(claim_c2_selection Nat certsW env9 s9).1 helloA 0 (by decide) (by decide) (by decide),
   (claim_c2_selection Nat certsW env9 s9).2.1 helloC (by decide) (by decide),
   (claim_c2_selection Nat certsW env9 s9).2.2 helloB 0 s9 [net1]
     (by decide) (by decide) (by decide) (by decide) (by decide)⟩

/-- Claim C8: a ClientHello with an empty server name is always refused
with the missing-server-name error and no certificate, whatever the
configured certificates, the filtering flag, the cache state and the
remote address. -/
theorem claim_c8_missing_sni {Cert : Type} (fIP : Bool) (certs : List Cert)
    (env : Env) (s : CacheState) (info : ClientHelloInfo Cert)
    (h : info.serverName = "") :
    getCertificate fIP certs env s info = (s, SelOutcome.refuse errMissingServerName, 0) := by
  unfold getCertificate
  rw [if_pos h]

/-- Claim C8 witness: the empty-SNI hello is refused even though its
supports test matches certificate 0 and its address is allowlisted. -/
theorem claim_c8_witness :
    getCertificate true certsW env9 s9 helloEmpty =
      (s9, SelOutcome.refuse errMissingServerName, 0) :=
  claim_c8_missing_sni true certsW env9 s9 helloEmpty rfl

/-- Claim C3 counterexample: with the set `[net1]` published and a failing
fetch, the refresh leaves the published set unchanged but returns the nil
slice (`return nil` in the Go source), not the stale previously published
set — refuting the claim that the call returns the stale set. -/
theorem claim_c3_counterexample :
    s0.published = some [net1]
    ∧ (updateIPs envFail s0).1.published = some [net1]
    ∧ (updateIPs envFail s0).2 = UpdateResult.ret []
    ∧ (updateIPs envFail s0).2 ≠ UpdateResult.ret [net1] := by
  exact ⟨rfl, by decide, by decide, by decide⟩

/-- Claim C3, amended: for every refresh call made after a set has been
published, if the fetch (or any line's parse) fails, the published set is
left unchanged, but the refresh call returns the empty/nil slice rather
than the stale previously published set; the stale set remains what
readers of the published state observe. -/
theorem claim_c3_fail_soft (env : Env) (s : CacheState)
    (hp : s.published.isSome = true)
    (ht : sinceExceedsHour env.now s.lastAttempt = true)
    (hf : isErr (loadIPs env.resp4) = true ∨ isErr (loadIPs env.resp6) = true) :
    (updateIPs env s).1.published = s.published
    ∧ (updateIPs env s).2 = UpdateResult.ret [] := by
  unfold updateIPs
  rw [if_pos ht]
  cases h4 : loadIPs env.resp4 with
  | error e =>
    cases hpv : s.published with
    | none => simp [hpv] at hp
    | some p => simp [hpv]
  | ok l4 =>
    cases h6 : loadIPs env.resp6 with
    | error e =>
      cases hpv : s.published with
      | none => simp [hpv] at hp
      | some p => simp [hpv]
    | ok l6 =>
      rcases hf with hf | hf
      · rw [h4] at hf; cases hf
      · rw [h6] at hf; cases hf

/-- Claim C3 witness: the amended statement at the concrete failing fetch. -/
theorem claim_c3_witness :
    (updateIPs envFail s0).1.published = s0.published
    ∧ (updateIPs envFail s0).2 = UpdateResult.ret [] :=
  claim_c3_fail_soft envFail s0 (by decide) (by decide) (Or.inl (by decide))

/-- Claim C4: no refresh call, successful or failed, ever replaces a
present published set with an absent one — once published, always
published. -/
theorem claim_c4_published_monotone (env : Env) (s : CacheState)
    (h : s.published.isSome = true) : (updateIPs env s).1.published.isSome = true := by
  unfold updateIPs
  by_cases hf : sinceExceedsHour env.now s.lastAttempt = true
  · rw [if_pos hf]
    cases h4 : loadIPs env.resp4 with
    | error e =>
      cases hp : s.published with
      | none => simp [hp] at h
      | some p => simp [hp]
    | ok l4 =>
      cases h6 : loadIPs env.resp6 with
      | error e =>
        cases hp : s.published with
        | none => simp [hp] at h
        | some p => simp [hp]
      | ok l6 => simp
  · rw [if_neg hf]
    cases hp : s.published with
    | none => simp [hp] at h
    | some p => simp [hp]

/-- Claim C4 witness: a failed refresh keeps the published set present. -/
theorem claim_c4_witness : (updateIPs envFail s0).1.published.isSome = true :=
  claim_c4_published_monotone envFail s0 (by decide)

/-- Claim C5: a remote address whose IP lies inside some published prefix
is allowed with no refresh triggered; an address whose IP lies in no
published prefix triggers exactly one refresh, is re-tested against the
refresh's returned slice, and is denied if still in no prefix. -/
theorem claim_c5_checkip (env : Env) (s : CacheState) (addr : Addr) :
    (inAnyNet (s.published.getD []) (addrIP addr) = true →
       checkIP env s addr = (s, CheckOutcome.allowed, 0))
    ∧ (∀ (s1 : CacheState) (v : List IPNet),
       inAnyNet (s.published.getD []) (addrIP addr) = false →
       updateIPs env s = (s1, UpdateResult.ret v) →
       checkIP env s addr =
         (s1, (if inAnyNet v (addrIP addr) then CheckOutcome.allowed
               else CheckOutcome.denied), 1)) :=
  ⟨fun h => checkIP_hit env s addr h,
   fun s1 v h hu => checkIP_miss env s addr s1 v h hu⟩

/-- Claim C5 witness: the inside address is allowed with zero refreshes;
the outside address takes one refresh and is denied. -/
theorem claim_c5_witness :
    checkIP env9 s9 (Addr.tcp ipIn) = (s9, CheckOutcome.allowed, 0)
    ∧ checkIP env9 s9 (Addr.tcp ipOut) =
        (s9, (if inAnyNet [net1] (addrIP (Addr.tcp ipOut)) then CheckOutcome.allowed
              else CheckOutcome.denied), 1) :=
  ⟨(claim_c5_checkip env9 s9 (Addr.tcp ipIn)).1 (by decide),
   (claim_c5_checkip env9 s9 (Addr.tcp ipOut)).2 s9 [net1] (by decide) (by decide)⟩

/-- Claim C6: a refresh made when no set has ever been published whose
fetch (or parse) fails is fatal — the process terminates instead of
publishing an empty allowlist or continuing with no data. -/
theorem claim_c6_bootstrap_fatal (env : Env) (s : CacheState)
    (hp : s.published = none)
    (ht : sinceExceedsHour env.now s.lastAttempt = true)
    (hf : isErr (loadIPs env.resp4) = true ∨ isErr (loadIPs env.resp6) = true) :
    ∃ m, (updateIPs env s).2 = UpdateResult.fatal m := by
  unfold updateIPs
  rw [if_pos ht]
  cases h4 : loadIPs env.resp4 with
  | error e => rw [hp]; exact ⟨msgFetch4 ++ e, rfl⟩
  | ok l4 =>
    cases h6 : loadIPs env.resp6 with
    | error e => rw [hp]; exact ⟨msgFetch6 ++ e, rfl⟩
    | ok l6 =>
      rcases hf with hf | hf
      · rw [h4] at hf; cases hf
      · rw [h6] at hf; cases hf

/-- Claim C6 witness: bootstrapping against an unreachable endpoint exits
fatally. -/
theorem claim_c6_witness : ∃ m, (updateIPs envFail sInit).2 = UpdateResult.fatal m :=
  claim_c6_bootstrap_fatal envFail sInit rfl (by decide) (Or.inl (by decide))

/-- Claim C7: two refresh calls less than one hour apart perform at most
one fetch cycle; the throttled call performs no fetch, leaves the state —
including the attempt time — unchanged, and returns the currently
published set unchanged without failing (in every reachable state,
witnessed by the stamped-time-implies-published invariant, that set is
present; the processes survives). -/
theorem claim_c7_throttle (env1 env2 : Env) (s : CacheState)
    (hinv : s.lastAttempt.isSome = true → s.published.isSome = true)
    (h0 : 0 ≤ env2.now - env1.now)
    (hlt : env2.now - env1.now < oneHour)
    (hsurv : isFatal (updateIPs env1 s).2 = false) :
    (didFetch env1 s = true → didFetch env2 (updateIPs env1 s).1 = false)
    ∧ (didFetch env2 (updateIPs env1 s).1 = false →
       ∃ v, (updateIPs env1 s).1.published = some v ∧
         updateIPs env2 (updateIPs env1 s).1 = ((updateIPs env1 s).1, UpdateResult.ret v)) := by
  constructor
  · intro hf1
    have hla := updateIPs_fetch_lastAttempt env1 s hf1
    unfold didFetch
    rw [hla]
    have hlt2 : env2.now - env1.now < 3600 := hlt
    show decide (env2.now - env1.now > (3600 : Int)) = false
    exact decide_eq_false (by omega)
  · intro ht2
    have hla2 : (updateIPs env1 s).1.lastAttempt.isSome = true :=
      sinceExceedsHour_false_isSome env2.now (updateIPs env1 s).1.lastAttempt ht2
    have hpub : (updateIPs env1 s).1.published.isSome = true :=
      updateIPs_inv env1 s hinv hsurv hla2
    obtain ⟨p, hp⟩ := Option.isSome_iff_exists.mp hpub
    exact ⟨p, hp, updateIPs_throttled env2 (updateIPs env1 s).1 p ht2 hp⟩

/-- Claim C7 witness: a successful bootstrap at time 5000 followed by a
call at time 6000 — the second call is throttled and returns the published
set unchanged. -/
theorem claim_c7_witness :
    (didFetch envOk sInit = true → didFetch envLater (updateIPs envOk sInit).1 = false)
    ∧ (didFetch envLater (updateIPs envOk sInit).1 = false →
       ∃ v, (updateIPs envOk sInit).1.published = some v ∧
         updateIPs envLater (updateIPs envOk sInit).1 =
           ((updateIPs envOk sInit).1, UpdateResult.ret v)) :=
  claim_c7_throttle envOk envLater sInit (by decide) (by decide) (by decide) (by decide)

/-- Claim C9 counterexample: at a concrete denied accept, the filtering
listener returns, without error, the decoy connection — but the underlying
socket, open on arrival, has been closed by `c.Close()` before the decoy
is handed out, refuting the claim that the decoy fails reads and writes
without closing the socket. -/
theorem claim_c9_counterexample :
    c0.closed = false
    ∧ acceptConn env9 s9 (Except.ok c0) =
        (s9, AcceptOutcome.conn
          (AcceptedConn.decoy { remoteAddr := Addr.tcp ipOut, closed := true })) := by
  exact ⟨rfl, by decide⟩

/-- Claim C9, amended: for every accepted connection failing the IP gate,
Accept returns without error a decoy connection whose Read and Write fail
with the not-a-Cloudflare-IP error and whose Close reports success, none
of them touching the socket further — but the underlying socket is closed
at accept time, before the decoy is returned. -/
theorem claim_c9_decoy (env : Env) (s : CacheState) (c : NetConn) (s1 : CacheState)
    (k want : Nat) (buf : List Nat)
    (hd : checkIP env s c.remoteAddr = (s1, CheckOutcome.denied, k)) :
    acceptConn env s (Except.ok c) =
      (s1, AcceptOutcome.conn (AcceptedConn.decoy { c with closed := true }))
    ∧ decoyRead { c with closed := true } want =
        ((0, some errNotCloudflare), { c with closed := true })
    ∧ decoyWrite { c with closed := true } buf =
        ((0, some errNotCloudflare), { c with closed := true })
    ∧ decoyClose { c with closed := true } = (none, { c with closed := true }) := by
  refine ⟨?_, rfl, rfl, rfl⟩
  simp only [acceptConn]
  rw [hd]

/-- Claim C9 witness: the amended statement at the concrete denied accept. -/
theorem claim_c9_witness :
    acceptConn env9 s9 (Except.ok c0) =
      (s9, AcceptOutcome.conn (AcceptedConn.decoy { c0 with closed := true }))
    ∧ decoyRead { c0 with closed := true } 16 =
        ((0, some errNotCloudflare), { c0 with closed := true })
    ∧ decoyWrite { c0 with closed := true } [7] =
        ((0, some errNotCloudflare), { c0 with closed := true })
    ∧ decoyClose { c0 with closed := true } = (none, { c0 with closed := true }) :=
  claim_c9_decoy env9 s9 c0 s9 1 16 [7] (by decide)

/-- Claim C10: a remote address that is not a TCP, UDP or IP address gives
the type switch no IP to extract (the nil IP), and the gate never treats
the connection as allowed, whatever well-formed published set the cache
holds and whatever the triggered refresh fetches. -/
theorem claim_c10_unknown_addr (env : Env) (s : CacheState)
    (hp : ∀ n ∈ s.published.getD [], wfNet n = true) :
    (checkIP env s Addr.other).2.1 ≠ CheckOutcome.allowed := by
  have h0 : inAnyNet (s.published.getD []) (addrIP Addr.other) = false :=
    inAnyNet_nil (s.published.getD []) hp
  unfold checkIP
  rw [h0]
  cases hu : updateIPs env s with
  | mk s1 r =>
    cases r with
    | ret v =>
      have hv : ∀ n ∈ v, wfNet n = true := updateIPs_ret_wf env s v hp (by rw [hu])
      have h1 : inAnyNet v (addrIP Addr.other) = false := inAnyNet_nil v hv
      simp [h1]
    | fatal m => simp
    | panicked => simp

/-- Claim C10 witness: with net1 published, the addressless connection is
not allowed. -/
theorem claim_c10_witness : (checkIP env9 s9 Addr.other).2.1 ≠ CheckOutcome.allowed :=
  claim_c10_unknown_addr env9 s9 (by decide)
